import Mathlib

/-!
Verification development for the event-flow animation sequencer of the
Agentic Canvas frontend (demo5 `event-flow.js`, class
`EnhancedEventFlowVisualizer`, plus the demo4 variant).

The DOM is embedded shallowly: a document is the list of element ids of the
system nodes declared in the markup; an element is identified with its id;
a node's `classList` is a list of class strings.  The visualizer instance
state is a record mirroring the mutable fields of the JS class, together
with a `trace` of observable operations (log appends and toasts) and a
`pending` list of scheduled `setTimeout` cleanups (a cleanup "fires" when
the corresponding timeout elapses).  Network calls are modelled by outcome
parameters: the code branches on whether a `fetch` resolves or rejects, so
each fetch becomes an explicit outcome argument.
-/

/-- A document: the set of element ids present in the page markup
(`document.getElementById` succeeds exactly on these). -/
abbrev Doc := List String

/-- `document.getElementById`: an element is identified with its id. -/
def getElementById (doc : Doc) (id : String) : Option String :=
  if id ∈ doc then some id else none

/-- JS `systemName.replace(/[\s_]/g, '-')`: every whitespace or underscore
character is replaced by a dash (event-flow.js line 342). -/
def jsNormalizeName (s : String) : String :=
  String.mk (s.data.map fun c =>
    if c = ' ' ∨ c = '\t' ∨ c = '\n' ∨ c = '\r' ∨ c = '\x0b' ∨ c = '\x0c' ∨ c = '_'
    then '-' else c)

/-- The candidate element ids tried by `getNodeElement`, in order: first the
normalized form, then the raw system name (event-flow.js lines 342-349).
This is a pure function of the system-name string. -/
def candidateIds (systemName : String) : List String :=
  ["node-" ++ jsNormalizeName systemName, "node-" ++ systemName]

/-- `getNodeElement` (event-flow.js lines 340-359): normalize the system name
to an element id, fall back to the raw name, return null (`none`) when
neither id exists; the misses only log console warnings. -/
def getNodeElement (systemName : String) (doc : Doc) : Option String :=
  match getElementById doc ("node-" ++ jsNormalizeName systemName) with
  | some e => some e
  | none => getElementById doc ("node-" ++ systemName)

/-- First candidate id that resolves in the document. -/
def firstResolve (doc : Doc) (ids : List String) : Option String :=
  ids.findSome? (getElementById doc)

/-- An event record as consumed by `animateEvent`/`addEventToLog`
(the fields of the backend `Event` payload and of the mock events built
from flow steps; the wall-clock timestamp is display-only and omitted). -/
structure EventRecord where
  source_system : String
  target_system : String
  event_type : String
  processing_time_ms : Nat
  description : String
  step : Nat
  total_steps : Nat
  delay_ms : Nat
  deriving Repr, DecidableEq

/-- A rendered child of the event-log container: the "No events yet"
placeholder (class `text-center py-5`), a per-event entry, or the special
scenario-result entry inserted by `displayScenarioResult`. -/
inductive Entry where
  | placeholder
  | event (e : EventRecord)
  | result
  deriving Repr, DecidableEq

/-- The placeholder test of `addEventToLog`: the removed first child is the
one whose `className` includes `text-center` (only the placeholder does). -/
def isPlaceholderEntry : Entry → Bool
  | .placeholder => true
  | _ => false

/-- Lines 408-414 / 1192-1198: if the log has exactly one child and it is the
placeholder, remove it. -/
def stripPlaceholderIfAlone (log : List Entry) : List Entry :=
  match log with
  | [e] => if isPlaceholderEntry e then [] else log
  | _ => log

/-- The trimming loop of the capped `addEventToLog` variants (lines 474-476
and 1689-1692): `while (children.length > 50) removeChild(lastChild)`. -/
def trimLog (l : List Entry) : List Entry :=
  if l.length > 50 then trimLog l.dropLast else l
  termination_by l.length
  decreasing_by
    simp only [List.length_dropLast]
    omega

/-- The basic `addEventToLog` (event-flow.js lines 407-477; same log shape in
the second demo5 class, lines 1623-1693): drop a lone placeholder, insert the
new entry at the top, then evict from the tail while over 50 entries. -/
def addEventToLog (log : List Entry) (e : EventRecord) : List Entry :=
  trimLog (Entry.event e :: stripPlaceholderIfAlone log)

/-- The enhanced `addEventToLog` override (event-flow.js lines 1191-1302),
the definition actually in effect on the demo5 visualizer class (a later
method definition with the same name replaces the earlier one): drop a lone
placeholder and insert at the top.  It contains no eviction loop. -/
def addEventToLogEnhanced (log : List Entry) (e : EventRecord) : List Entry :=
  Entry.event e :: stripPlaceholderIfAlone log

/-- The demo4 variant `addEnhancedEventToLog` (part_001 lines 535-619):
placeholder removed whenever present, insert at top, evict tail over 50. -/
def addEnhancedEventToLog (log : List Entry) (e : EventRecord) : List Entry :=
  trimLog (Entry.event e :: log.filter (fun x => !isPlaceholderEntry x))

/-- Per-node class lists: an association list from element id to its
`classList` (nodes appear once; untouched nodes have an empty class list). -/
abbrev NodeClasses := List (String × List String)

/-- The class list of a node (empty when the node was never touched). -/
def classesOf (nc : NodeClasses) (n : String) : List String :=
  match nc with
  | [] => []
  | (m, cl) :: rest => if m = n then cl else classesOf rest n

/-- `classList.add` on a single class: appends it when absent. -/
def addClassTo (cl : List String) (c : String) : List String :=
  if cl.contains c then cl else cl ++ [c]

/-- Add one class to one node. -/
def addClass (nc : NodeClasses) (n : String) (c : String) : NodeClasses :=
  match nc with
  | [] => [(n, [c])]
  | (m, cl) :: rest =>
    if m = n then (m, addClassTo cl c) :: rest else (m, cl) :: addClass rest n c

/-- `classList.add(c1, c2, ...)` on one node. -/
def addClasses (nc : NodeClasses) (n : String) (cs : List String) : NodeClasses :=
  cs.foldl (fun nc c => addClass nc n c) nc

/-- `classList.remove(c1, c2, ...)` on one node. -/
def removeClasses (nc : NodeClasses) (n : String) (cs : List String) : NodeClasses :=
  nc.map fun p => if p.1 = n then (p.1, p.2.filter (fun c => !cs.contains c)) else p

/-- `querySelectorAll('.system-node').forEach(n => n.classList.remove(...))`. -/
def removeClassesAll (nc : NodeClasses) (cs : List String) : NodeClasses :=
  nc.map fun p => (p.1, p.2.filter (fun c => !cs.contains c))

/-- Toast severities passed to `showToast`. -/
inductive ToastType where
  | info
  | success
  | warning
  | error
  deriving Repr, DecidableEq

/-- Observable operations recorded by a run: an append to the event-log
container performed by `addEventToLog`, or a `showToast` call. -/
inductive Op where
  | logAppend (e : Entry)
  | toast (ty : ToastType) (msg : String)
  deriving Repr, DecidableEq

/-- The entries appended to the log by the `addEventToLog` calls of a trace,
in call order. -/
def logAppendsOf (tr : List Op) : List Entry :=
  tr.filterMap fun op =>
    match op with
    | .logAppend e => some e
    | _ => none

/-- A scheduled `setTimeout` cleanup:
`step src tgt` is the deactivation scheduled at the end of `animateEvent`
(lines 329-337: remove `active, processing, receiving` from the source and
`active, receiving` from the target after 1200ms); `allNodes` is the deferred
`cleanupAllNodeStates` (lines 274-276 and 1127-1137). -/
inductive CleanupTask where
  | step (src tgt : Option String)
  | allNodes
  deriving Repr, DecidableEq

/-- Classes removed from the source node by a step's scheduled cleanup
(line 331). -/
def srcRemoveList : List String := ["active", "processing", "receiving"]

/-- Classes removed from the target node by a step's scheduled cleanup
(line 334). -/
def tgtRemoveList : List String := ["active", "receiving"]

/-- Classes removed from every node by `cleanupAllNodeStates` (line 1130). -/
def cleanupAllList : List String :=
  ["active", "processing", "receiving", "scenario-active", "scenario-involved"]

/-- Fire one scheduled cleanup. -/
def fireCleanup (nc : NodeClasses) : CleanupTask → NodeClasses
  | .step src tgt =>
    let nc1 := match src with
      | some n => removeClasses nc n srcRemoveList
      | none => nc
    match tgt with
    | some n => removeClasses nc1 n tgtRemoveList
    | none => nc1
  | .allNodes => removeClassesAll nc cleanupAllList

/-- Fire a list of scheduled cleanups in order. -/
def fireTasks (nc : NodeClasses) (ts : List CleanupTask) : NodeClasses :=
  ts.foldl fireCleanup nc

/-- The mutable state of the demo5 `EnhancedEventFlowVisualizer` instance
together with the DOM pieces it drives and the recorded operation trace. -/
structure VizState where
  log : List Entry
  eventCount : Nat
  metricEvents : String
  metricLatency : String
  metricSystems : String
  systemsInvolved : List String
  isSimulating : Bool
  btnSimulateDisabled : Bool
  nodeClasses : NodeClasses
  connectionsActive : Bool
  scenarioPanelActive : Bool
  statusBarVisible : Bool
  currentScenarioAgents : Option (List String)
  pending : List CleanupTask
  trace : List Op
  deriving Repr, DecidableEq

/-- The state right after the constructor ran on a fresh page: counters zero,
the log holding only the markup placeholder, no classes applied. -/
def initViz : VizState :=
  { log := [Entry.placeholder], eventCount := 0, metricEvents := "0",
    metricLatency := "0ms", metricSystems := "16", systemsInvolved := [],
    isSimulating := false, btnSimulateDisabled := false, nodeClasses := [],
    connectionsActive := false, scenarioPanelActive := false,
    statusBarVisible := false, currentScenarioAgents := none,
    pending := [], trace := [] }

/-- `showToast(message, type)`: records the toast (the element self-removes
after about 3 seconds and carries no other state). -/
def pushToast (s : VizState) (ty : ToastType) (msg : String) : VizState :=
  { s with trace := s.trace ++ [Op.toast ty msg] }

/-- Add `x` to a JS `Set`-backed list when absent (`systemsInvolved.add`). -/
def insertUnique (l : List String) (x : String) : List String :=
  if x ∈ l then l else l ++ [x]

/-- `clearEventLog` (lines 745-750): remove every child of the container. -/
def clearEventLog (s : VizState) : VizState :=
  { s with log := [] }

/-- `highlightScenarioComponents` (lines 998-1019): drop `scenario-involved`
everywhere, re-add it on the current scenario's agents and on the resolved
source and target of the event. -/
def highlightScenarioComponents (doc : Doc) (s : VizState) (ev : EventRecord) :
    VizState :=
  let nc := removeClassesAll s.nodeClasses ["scenario-involved"]
  let nc := match s.currentScenarioAgents with
    | some agents =>
      agents.foldl
        (fun nc a =>
          match getNodeElement a doc with
          | some n => addClass nc n "scenario-involved"
          | none => nc)
        nc
    | none => nc
  let nc := match getNodeElement ev.source_system doc with
    | some n => addClass nc n "scenario-involved"
    | none => nc
  let nc := match getNodeElement ev.target_system doc with
    | some n => addClass nc n "scenario-involved"
    | none => nc
  { s with nodeClasses := nc }

/-- `animateEvent` (event-flow.js lines 294-338, enhanced demo5 class):
resolve the nodes, highlight scenario components, apply the active classes
(source: `active, processing, scenario-active` plus connection activation;
target: `active, scenario-active, receiving`), append the log entry, update
the realtime stats, and schedule the 1200ms deactivation cleanup.  The
particle animation and pulse effects are purely visual and state-free. -/
def animateEvent (doc : Doc) (s : VizState) (ev : EventRecord) : VizState :=
  let src := getNodeElement ev.source_system doc
  let tgt := getNodeElement ev.target_system doc
  let s1 := highlightScenarioComponents doc s ev
  let nc := match src with
    | some n => addClasses s1.nodeClasses n ["active", "processing", "scenario-active"]
    | none => s1.nodeClasses
  let nc := match tgt with
    | some n => addClasses nc n ["active", "scenario-active", "receiving"]
    | none => nc
  let count := s.eventCount + 1
  let sys := insertUnique (insertUnique s.systemsInvolved ev.source_system)
    ev.target_system
  { s with
    nodeClasses := nc,
    connectionsActive := if src.isSome then true else s.connectionsActive,
    log := addEventToLogEnhanced s.log ev,
    trace := s.trace ++ [Op.logAppend (Entry.event ev)],
    eventCount := count,
    metricEvents := toString count,
    metricLatency :=
      if ev.processing_time_ms ≠ 0 then toString ev.processing_time_ms ++ "ms"
      else s.metricLatency,
    systemsInvolved := sys,
    metricSystems := toString sys.length,
    pending := s.pending ++ [CleanupTask.step src tgt] }

/-- Run `animateEvent` over a list of already-built events in order (the body
of the sequencer's per-step loop; the `sleep` suspensions carry no state). -/
def runEvents (doc : Doc) (s : VizState) (evs : List EventRecord) : VizState :=
  evs.foldl (animateEvent doc) s

/-- A flow step descriptor `{from, to, description, event, delay}` as
delivered by the scenario API or hardcoded in the fallback scenarios. -/
structure FlowStep where
  fromSys : String
  toSys : String
  description : Option String
  event : Option String
  delay : Option Nat
  deriving Repr, DecidableEq

/-- JS `x || d` on an optional number (0 is falsy). -/
def jsOrNat (x : Option Nat) (d : Nat) : Nat :=
  match x with
  | some n => if n = 0 then d else n
  | none => d

/-- JS `x || d` on an optional string (the empty string is falsy). -/
def jsOrStr (x : Option String) (d : String) : String :=
  match x with
  | some v => if v = "" then d else v
  | none => d

/-- The mock event built from flow step `i` (1-based) of `total`
(event-flow.js lines 885-897). -/
def mkMockEvent (step : FlowStep) (idx total : Nat) : EventRecord :=
  { source_system := step.fromSys, target_system := step.toSys,
    event_type := jsOrStr step.event "SYSTEM_EVENT",
    processing_time_ms := jsOrNat step.delay 500,
    description := jsOrStr step.description (step.fromSys ++ " → " ++ step.toSys),
    step := idx, total_steps := total, delay_ms := jsOrNat step.delay 500 }

/-- The mock events of a whole flow, in order with 1-based step numbers. -/
def mockEventsOf (flow : List FlowStep) : List EventRecord :=
  ((List.range flow.length).zip flow).map fun p =>
    mkMockEvent p.2 (p.1 + 1) flow.length

/-- `animateScenarioFromData` (event-flow.js lines 863-904): with no valid
`flow` array fall back to `showDemoAnimation`; otherwise clear the log and
animate the mock event of each flow step in order.  Defined mutually with the
fallbacks below, so the flow list is threaded as `Option`. -/
def demoFlow : List (String × String × String) :=
  [("UI", "Orchestrator", "User submits formulation request"),
   ("Orchestrator", "FormulationAgent", "Agent analysis started"),
   ("FormulationAgent", "SAP_ERP", "Querying material costs"),
   ("SAP_ERP", "FormulationAgent", "Material data retrieved"),
   ("FormulationAgent", "RAG_Engine", "Knowledge retrieval initiated"),
   ("RAG_Engine", "Vector_DB", "Vector search started"),
   ("Vector_DB", "RAG_Engine", "Similar formulations found"),
   ("FormulationAgent", "LIMS", "Historical test data query"),
   ("LIMS", "FormulationAgent", "Test results retrieved"),
   ("RegulatoryAgent", "Regulatory_DB", "Compliance check"),
   ("Regulatory_DB", "RegulatoryAgent", "Standards validated"),
   ("SupplyChainAgent", "Supplier_Portal", "Supplier availability check"),
   ("Supplier_Portal", "SupplyChainAgent", "Suppliers confirmed"),
   ("FormulationAgent", "Orchestrator", "Analysis complete"),
   ("Orchestrator", "UI", "Recommendations ready")]

/-- The mock events of the hardcoded 15-step demo flow (lines 928-947):
`DEMO_EVENT` type, `processing_time_ms` of `300 + i*50`, fixed 500ms delay. -/
def demoEvents : List EventRecord :=
  ((List.range demoFlow.length).zip demoFlow).map fun p =>
    { source_system := p.2.1, target_system := p.2.2.1,
      event_type := "DEMO_EVENT", processing_time_ms := 300 + p.1 * 50,
      description := p.2.2.2, step := p.1 + 1,
      total_steps := demoFlow.length, delay_ms := 500 }

/-- `showDemoAnimation` (lines 907-950): clear the log, animate the 15
hardcoded demo steps, then toast success. -/
def showDemoAnimation (doc : Doc) (s : VizState) : VizState :=
  pushToast (runEvents doc (clearEventLog s) demoEvents) .success
    "Demo animation completed"

/-- `animateScenarioFromData` proper (lines 863-904). -/
def animateScenarioFromData (doc : Doc) (s : VizState)
    (flow : Option (List FlowStep)) : VizState :=
  match flow with
  | none => showDemoAnimation doc s
  | some flow => runEvents doc (clearEventLog s) (mockEventsOf flow)

/-- The agents of the hardcoded quality-investigation mock scenario
(lines 955-981). -/
def mockScenarioAgents : List String :=
  ["FormulationAgent", "TestProtocolAgent", "RegulatoryAgent"]

/-- The 12-step flow of the hardcoded quality-investigation mock scenario
(lines 960-973). -/
def mockScenarioFlow : List FlowStep :=
  [{ fromSys := "UI", toSys := "Orchestrator",
     description := some "Quality investigation request submitted",
     event := none, delay := some 500 },
   { fromSys := "Orchestrator", toSys := "FormulationAgent",
     description := some "Analyzing batch formulation data",
     event := none, delay := some 800 },
   { fromSys := "FormulationAgent", toSys := "SAP_ERP",
     description := some "Retrieving batch production records",
     event := none, delay := some 600 },
   { fromSys := "SAP_ERP", toSys := "FormulationAgent",
     description := some "Production data: Temperature spike detected",
     event := none, delay := some 400 },
   { fromSys := "FormulationAgent", toSys := "LIMS",
     description := some "Querying detailed test results",
     event := none, delay := some 700 },
   { fromSys := "LIMS", toSys := "FormulationAgent",
     description := some "Viscosity out of spec: 11.8 cSt (target: 11.2)",
     event := none, delay := some 500 },
   { fromSys := "TestProtocolAgent", toSys := "PLM",
     description := some "Checking formulation specifications",
     event := none, delay := some 600 },
   { fromSys := "PLM", toSys := "TestProtocolAgent",
     description := some "Formulation specs retrieved",
     event := none, delay := some 400 },
   { fromSys := "RegulatoryAgent", toSys := "Regulatory_DB",
     description := some "Validating quality requirements",
     event := none, delay := some 500 },
   { fromSys := "Regulatory_DB", toSys := "RegulatoryAgent",
     description := some "API SP standards confirmed",
     event := none, delay := some 300 },
   { fromSys := "FormulationAgent", toSys := "Orchestrator",
     description := some "Root cause analysis complete",
     event := none, delay := some 600 },
   { fromSys := "Orchestrator", toSys := "UI",
     description := some "Investigation results ready",
     event := none, delay := some 400 }]

/-- `displayScenarioInfo` (enhanced definition, lines 1050-1083, the one in
effect on the class): show the status bar, fill the side panel, and mark the
scenario's agent nodes `scenario-involved` plus (after a staggered timeout of
at most one second) `scenario-active`; the timeout is folded in since it
always fires.  The panel text fields are display-only strings. -/
def displayScenarioInfo (doc : Doc) (s : VizState)
    (agents : Option (List String)) : VizState :=
  let s := { s with statusBarVisible := true }
  match agents with
  | some agents =>
    let nc := agents.foldl
      (fun nc a =>
        match getNodeElement a doc with
        | some n => addClass (addClass nc n "scenario-involved") n "scenario-active"
        | none => nc)
      s.nodeClasses
    { s with nodeClasses := nc }
  | none => s

/-- `displayScenarioResult` (lines 670-727): build the result entry and
insert it at the top of the log container (no eviction here either). -/
def displayScenarioResult (s : VizState) : VizState :=
  { s with log := Entry.result :: s.log }

/-- `showDemoAnimationWithScenario` (lines 953-995): install the mock
scenario, show its info, animate its 12-step flow, display the result entry
and toast success. -/
def showDemoAnimationWithScenario (doc : Doc) (s : VizState) : VizState :=
  let s := { s with currentScenarioAgents := some mockScenarioAgents }
  let s := displayScenarioInfo doc s (some mockScenarioAgents)
  let s := animateScenarioFromData doc s (some mockScenarioFlow)
  let s := displayScenarioResult s
  pushToast s .success "Quality investigation scenario completed"

/-- `startImmediateAnimation` (lines 843-860): mark every system node
`scenario-involved`, activate the connection lines, zero the metrics. -/
def startImmediateAnimation (doc : Doc) (s : VizState) : VizState :=
  { s with
    nodeClasses := doc.foldl (fun nc n => addClass nc n "scenario-involved") s.nodeClasses,
    connectionsActive := true,
    eventCount := 0, metricEvents := "0", metricLatency := "0ms" }

/-- Whether an awaited `fetch` resolved or rejected. -/
inductive FetchOutcome where
  | ok
  | reject
  deriving Repr, DecidableEq

/-- Classes removed from every system node by `clear` (line 785). -/
def clearResetClasses : List String :=
  ["active", "processing", "scenario-active", "scenario-involved",
   "receiving", "context-active"]

/-- `clear` (event-flow.js lines 763-808): POST `/events/clear`, then — only
when the fetch resolved — reset the log to the placeholder, hide the
scenario panel and status bar, strip all highlight classes, deactivate
connections, zero the metrics and reset the instance state.  When the fetch
rejects, the catch branch only shows an error toast. -/
def clear (o : FetchOutcome) (s : VizState) : VizState :=
  match o with
  | .reject => pushToast s .error "Error clearing events"
  | .ok =>
    { s with
      log := [Entry.placeholder],
      scenarioPanelActive := false,
      statusBarVisible := false,
      nodeClasses := removeClassesAll s.nodeClasses clearResetClasses,
      connectionsActive := false,
      eventCount := 0,
      systemsInvolved := [],
      metricEvents := "0",
      metricLatency := "0ms",
      metricSystems := "16",
      currentScenarioAgents := none,
      isSimulating := false }

/-- Outcome of the `/events/recent` fetch inside `animateScenario`. -/
inductive EventsApiOutcome where
  | reject
  | ok (events : List EventRecord)
  deriving Repr, DecidableEq

/-- `animateScenario` (event-flow.js lines 238-292): fetch the workflow's
events; on rejection only an error toast; on an empty result fall back to
the demo animation; otherwise reset the counters, animate each event (with
an extra per-event counter update after `animateEvent`, as in lines
260-264), toast completion and schedule `cleanupAllNodeStates` for 2s
later. -/
def animateScenario (doc : Doc) (o : EventsApiOutcome) (s : VizState) : VizState :=
  match o with
  | .reject => pushToast s .error "Animation error"
  | .ok events =>
    if events.isEmpty then
      showDemoAnimation doc (pushToast s .info "No events found, showing demo animation")
    else
      let s := clearEventLog s
      let s := { s with eventCount := 0, metricEvents := "0", metricLatency := "0ms" }
      let s := events.foldl
        (fun s ev =>
          let s := animateEvent doc s ev
          let c := s.eventCount + 1
          { s with eventCount := c, metricEvents := toString c,
                   metricLatency := toString ev.processing_time_ms ++ "ms" })
        s
      let s := pushToast s .success
        ("Scenario complete! " ++ toString events.length ++ " events processed")
      { s with pending := s.pending ++ [CleanupTask.allNodes] }

/-- Outcome of the `/scenarios/random` POST inside `simulateRandomScenario`:
network rejection, a non-ok HTTP status (thrown, hence caught), an
unsuccessful API result, or a successful result carrying the scenario's
agents, optional flow, and whether a workflow id and a result object came
along. -/
inductive ScenarioApiOutcome where
  | reject (msg : String)
  | httpError (msg : String)
  | apiFailure (seedHint : Bool) (errMsg : String)
  | ok (agents : Option (List String)) (flow : Option (List FlowStep))
      (hasWorkflow : Bool) (hasResult : Bool)
  deriving Repr, DecidableEq

/-- The environment of one `simulateRandomScenario` call: the outcomes of
the fetches it may await and the document it runs against. -/
structure Env where
  clearOutcome : FetchOutcome
  scenarioApi : ScenarioApiOutcome
  eventsApi : EventsApiOutcome
  doc : Doc
  deriving Repr, DecidableEq

/-- `simulateRandomScenario` (event-flow.js lines 145-223): no-op with an
info toast while a simulation is in progress; otherwise clear, raise the
`isSimulating` flag, disable the button, start the immediate animation and
dispatch on the scenario API outcome — every failure degrades to the mock
scenario demo with a warning toast — and in the `finally` block reset the
flag and re-enable the button. -/
def simulateRandomScenario (env : Env) (s : VizState) : VizState :=
  if s.isSimulating then
    pushToast s .info "Simulation already in progress"
  else
    let s := clear env.clearOutcome s
    let s := { s with isSimulating := true, btnSimulateDisabled := true }
    let s := startImmediateAnimation env.doc s
    let s := match env.scenarioApi with
      | .reject msg =>
        showDemoAnimationWithScenario env.doc
          (pushToast s .warning ("Network error, running demo: " ++ msg))
      | .httpError msg =>
        showDemoAnimationWithScenario env.doc
          (pushToast s .warning ("Network error, running demo: " ++ msg))
      | .apiFailure seedHint errMsg =>
        let s :=
          if seedHint then
            pushToast s .warning "Database not seeded. Running demo scenario..."
          else
            pushToast s .warning ("API failed, running demo: " ++ errMsg)
        showDemoAnimationWithScenario env.doc s
      | .ok agents flow hasWorkflow hasResult =>
        let s := { s with currentScenarioAgents := agents }
        let s := displayScenarioInfo env.doc s agents
        let s := match flow with
          | some f => animateScenarioFromData env.doc s (some f)
          | none =>
            if hasWorkflow then animateScenario env.doc env.eventsApi s
            else showDemoAnimationWithScenario env.doc s
        if hasResult then displayScenarioResult s else s
    { s with isSimulating := false, btnSimulateDisabled := false }

/-- The re-entry gate of part_001 `simulateScenario` (lines 162-213): the
`isSimulating` flag and the number of runs currently between the flag-raise
and the `finally` reset. -/
structure SimGate where
  isSimulating : Bool
  activeRuns : Nat
  deriving Repr, DecidableEq

/-- One observable transition of the part_001 gate.  In that variant the
guard (line 163), the synchronous `clear()` (line 170) and the flag-raise
(line 171) all run inside one run-to-completion segment — the first `await`
of `simulateScenario` is the fetch at line 181, after the flag is up — so a
starting invocation is a single atomic transition: a call while the flag is
up is only a warning toast (state unchanged), otherwise the flag is raised
and the run starts; `finish` is the `finally` block (lines 207-213). -/
inductive SimStep : SimGate → SimGate → Prop where
  | invokeBusy (s : SimGate) (h : s.isSimulating = true) : SimStep s s
  | invokeStart (s : SimGate) (h : s.isSimulating = false) :
      SimStep s { isSimulating := true, activeRuns := s.activeRuns + 1 }
  | finish (s : SimGate) (h : 0 < s.activeRuns) :
      SimStep s { isSimulating := false, activeRuns := s.activeRuns - 1 }

/-- part_001 gate states reachable from page load (flag down, no run). -/
inductive SimReachable : SimGate → Prop where
  | init : SimReachable { isSimulating := false, activeRuns := 0 }
  | step (s t : SimGate) : SimReachable s → SimStep s t → SimReachable t

/-- The re-entry gate of the demo5 `simulateRandomScenario` (lines 145-157
and 219-222).  Unlike part_001, the guard (line 146) and the flag-raise
(line 155) are separated by `await this.clear()` (line 152) with the
simulate button still enabled, so an invocation that passed the guard first
sits in an `awaitingClear` stage before its clear() fetch resolves and the
flag goes up. -/
structure RunGate where
  isSimulating : Bool
  awaitingClear : Nat
  activeRuns : Nat
  deriving Repr, DecidableEq

/-- One observable transition of the demo5 gate: a busy invocation is only
an info toast; an invocation finding the flag down passes the guard and
suspends on the awaited `clear()`; when that fetch resolves the invocation
raises the flag (unconditionally — the guard is not re-checked, line 155)
and its run becomes active; `finish` is the `finally` block. -/
inductive RunGateStep : RunGate → RunGate → Prop where
  | invokeBusy (s : RunGate) (h : s.isSimulating = true) : RunGateStep s s
  | invokePassGuard (s : RunGate) (h : s.isSimulating = false) :
      RunGateStep s { s with awaitingClear := s.awaitingClear + 1 }
  | clearResolved (s : RunGate) (h : 0 < s.awaitingClear) :
      RunGateStep s { isSimulating := true, awaitingClear := s.awaitingClear - 1,
                      activeRuns := s.activeRuns + 1 }
  | finish (s : RunGate) (h : 0 < s.activeRuns) :
      RunGateStep s { s with isSimulating := false, activeRuns := s.activeRuns - 1 }

/-- demo5 gate states reachable from page load (flag down, nothing queued). -/
inductive RunGateReachable : RunGate → Prop where
  | init : RunGateReachable { isSimulating := false, awaitingClear := 0, activeRuns := 0 }
  | step (s t : RunGate) : RunGateReachable s → RunGateStep s t → RunGateReachable t

/-- The highlight classes removed again by a step's own scheduled timeout. -/
def transientClasses : List String := ["active", "processing", "receiving"]

/-- Whether firing cleanup `t` removes class `c` from node `n`. -/
def taskRemovesAt (t : CleanupTask) (n c : String) : Prop :=
  match t with
  | .step src tgt =>
    (src = some n ∧ c ∈ srcRemoveList) ∨ (tgt = some n ∧ c ∈ tgtRemoveList)
  | .allNodes => c ∈ cleanupAllList

/-- Let every scheduled timeout elapse: fire all pending cleanups in order
(each step cleanup also runs `deactivateConnections`). -/
def fireAllPending (s : VizState) : VizState :=
  { s with nodeClasses := fireTasks s.nodeClasses s.pending,
           pending := [], connectionsActive := false }

/-- Every transient highlight class currently on some node has a pending
cleanup scheduled to remove it. -/
def coveredByPending (s : VizState) : Prop :=
  ∀ n c, c ∈ transientClasses → c ∈ classesOf s.nodeClasses n →
    ∃ t ∈ s.pending, taskRemovesAt t n c

/-- The single flow step of the C2 scenario:
`[{from:"UI", to:"Orchestrator", delay:100}]`. -/
def uiStep : FlowStep :=
  { fromSys := "UI", toSys := "Orchestrator", description := none,
    event := none, delay := some 100 }

/-- A fixed concrete event used for counterexample evaluations. -/
def sampleEvent : EventRecord :=
  { source_system := "UI", target_system := "Orchestrator",
    event_type := "SYSTEM_EVENT", processing_time_ms := 500,
    description := "demo", step := 1, total_steps := 1, delay_ms := 500 }

/-! ## Helper lemmas -/

theorem trimLog_eq_take (l : List Entry) : trimLog l = l.take 50 := by
  induction l using trimLog.induct with
  | case1 l h ih =>
    rw [trimLog, if_pos h, ih, List.dropLast_eq_take, List.take_take]
    congr 1
    omega
  | case2 l h =>
    rw [trimLog, if_neg h]
    exact (List.take_of_length_le (by omega)).symm

theorem addEventToLog_length_le (log : List Entry) (e : EventRecord) :
    (addEventToLog log e).length ≤ 50 := by
  rw [addEventToLog, trimLog_eq_take, List.length_take]
  omega

/-! ## Claim C1 -/

/-- Claim C1 as stated is false on the code: the enhanced `addEventToLog`
override (lines 1191-1302), which is the definition in effect on the demo5
visualizer class, performs no eviction, so appending 51 events to an empty
log container leaves 51 entries, exceeding 50. -/
theorem claim1_counterexample :
    ((List.replicate 51 sampleEvent).foldl addEventToLogEnhanced []).length = 51 ∧
    ¬ ((List.replicate 51 sampleEvent).foldl addEventToLogEnhanced []).length ≤ 50 := by
  decide

/-- Claim C1 (amended): for the capped `addEventToLog` variants — the basic
demo5 definition (lines 407-477, also the second demo5 class) and the demo4
`addEnhancedEventToLog` — the log never exceeds 50 entries after an append,
and the append keeps exactly the newest 50 entries, evicting from the tail
(the oldest entries, since insertion is at the head). -/
theorem claim1_amended (log : List Entry) (e : EventRecord) :
    (addEventToLog log e).length ≤ 50 ∧
    addEventToLog log e = (Entry.event e :: stripPlaceholderIfAlone log).take 50 ∧
    (addEnhancedEventToLog log e).length ≤ 50 ∧
    addEnhancedEventToLog log e
      = (Entry.event e :: log.filter (fun x => !isPlaceholderEntry x)).take 50 := by
  refine ⟨addEventToLog_length_le log e, ?_, ?_, ?_⟩
  · rw [addEventToLog, trimLog_eq_take]
  · rw [addEnhancedEventToLog, trimLog_eq_take, List.length_take]
    omega
  · rw [addEnhancedEventToLog, trimLog_eq_take]

/-! ## Trace bookkeeping lemmas -/

theorem animateEvent_trace (doc : Doc) (s : VizState) (ev : EventRecord) :
    (animateEvent doc s ev).trace = s.trace ++ [Op.logAppend (Entry.event ev)] := by
  simp [animateEvent]

theorem animateEvent_log (doc : Doc) (s : VizState) (ev : EventRecord) :
    (animateEvent doc s ev).log = addEventToLogEnhanced s.log ev := by
  simp [animateEvent]

theorem animateEvent_pending (doc : Doc) (s : VizState) (ev : EventRecord) :
    (animateEvent doc s ev).pending = s.pending ++
      [CleanupTask.step (getNodeElement ev.source_system doc)
        (getNodeElement ev.target_system doc)] := by
  simp [animateEvent]

theorem runEvents_cons (doc : Doc) (s : VizState) (e : EventRecord)
    (rest : List EventRecord) :
    runEvents doc s (e :: rest) = runEvents doc (animateEvent doc s e) rest := rfl

theorem runEvents_trace (doc : Doc) (evs : List EventRecord) :
    ∀ s : VizState, (runEvents doc s evs).trace
      = s.trace ++ evs.map (fun e => Op.logAppend (Entry.event e)) := by
  induction evs with
  | nil => intro s; simp [runEvents]
  | cons e rest ih =>
    intro s
    rw [runEvents_cons, ih, animateEvent_trace]
    simp

theorem mockEventsOf_length (flow : List FlowStep) :
    (mockEventsOf flow).length = flow.length := by
  simp [mockEventsOf]

theorem logAppendsOf_append (a b : List Op) :
    logAppendsOf (a ++ b) = logAppendsOf a ++ logAppendsOf b := by
  simp [logAppendsOf]

theorem logAppendsOf_mapAppend (l : List EventRecord) :
    logAppendsOf (l.map fun e => Op.logAppend (Entry.event e))
      = l.map Entry.event := by
  induction l with
  | nil => rfl
  | cons e rest ih => simp [logAppendsOf] at ih ⊢; exact ih

theorem clearEventLog_trace (s : VizState) : (clearEventLog s).trace = s.trace := rfl

theorem animateScenarioFromData_some (doc : Doc) (s : VizState)
    (flow : List FlowStep) :
    animateScenarioFromData doc s (some flow)
      = runEvents doc (clearEventLog s) (mockEventsOf flow) := rfl

/-! ## Claim C2 -/

/-- Claim C2 (confirmed): for every flow list handed to the sequencer loop
`animateScenarioFromData`, exactly one log-append operation per step is
invoked, in step order (the appended entries are exactly the mock events of
the flow, in order, and there are `flow.length` of them); and for the
single-step scenario `[from UI to Orchestrator, delay 100]` run from the
fresh page state, the log holds exactly one entry afterwards and the
`metricEvents` display reads "1". -/
theorem claim2 :
    (∀ (doc : Doc) (s : VizState) (flow : List FlowStep),
      logAppendsOf (animateScenarioFromData doc s (some flow)).trace
        = logAppendsOf s.trace ++ (mockEventsOf flow).map Entry.event ∧
      (mockEventsOf flow).length = flow.length) ∧
    (animateScenarioFromData [] initViz (some [uiStep])).log.length = 1 ∧
    (animateScenarioFromData [] initViz (some [uiStep])).metricEvents = "1" := by
  refine ⟨fun doc s flow => ⟨?_, mockEventsOf_length flow⟩, by decide, by decide⟩
  rw [animateScenarioFromData_some, runEvents_trace, clearEventLog_trace,
    logAppendsOf_append, logAppendsOf_mapAppend]

/-! ## Claim C3 -/

theorem simReachable_invariant (s : SimGate) (h : SimReachable s) :
    s.activeRuns ≤ 1 ∧ (s.isSimulating = true ↔ s.activeRuns = 1) := by
  induction h with
  | init => simp
  | step s1 t h1 hstep ih =>
    obtain ⟨ha, hb⟩ := ih
    cases hstep with
    | invokeBusy h2 => exact ⟨ha, hb⟩
    | invokeStart h2 =>
      have h0 : s1.activeRuns = 0 := by
        by_contra hne
        have hone : s1.activeRuns = 1 := by omega
        have hsim := hb.mpr hone
        rw [h2] at hsim
        simp at hsim
      simp [h0]
    | finish h2 =>
      have hone : s1.activeRuns = 1 := by omega
      simp [hone]

/-- Claim C3 as stated is false on the demo5 code: the `isSimulating` guard
(line 146) and the flag-raise (line 155) are separated by
`await this.clear()` (line 152), with the simulate button still enabled.
Two invocations arriving while the flag is down both pass the guard, each
awaited `clear()` resolves and raises the flag without re-checking it, and
the gate reaches a state with two simultaneously active runs. -/
theorem claim3_counterexample :
    RunGateReachable
      { isSimulating := true, awaitingClear := 0, activeRuns := 2 } ∧
    ¬ (RunGate.mk true 0 2).activeRuns ≤ 1 := by
  constructor
  · have h0 := RunGateReachable.init
    have h1 := RunGateReachable.step _ _ h0 (RunGateStep.invokePassGuard _ rfl)
    have h2 := RunGateReachable.step _ _ h1 (RunGateStep.invokePassGuard _ rfl)
    have h3 := RunGateReachable.step _ _ h2
      (RunGateStep.clearResolved _ (by decide))
    have h4 := RunGateReachable.step _ _ h3
      (RunGateStep.clearResolved _ (by decide))
    exact h4
  · decide

/-- Claim C3 (amended): the `isSimulating` flag gates re-entry only against
calls arriving after it is raised: any `simulateRandomScenario` call made
while the flag is up is a no-op apart from the informational toast, for
every environment and state.  The at-most-one-active-run invariant holds
for the part_001 `simulateScenario` gate, where nothing suspends between
the guard and the flag-raise; in the demo5 variant the awaited `clear()`
between them makes two simultaneously active runs reachable. -/
theorem claim3_amended (s : SimGate) (h : SimReachable s) :
    s.activeRuns ≤ 1 ∧
    (∀ (env : Env) (v : VizState), v.isSimulating = true →
      simulateRandomScenario env v
        = pushToast v ToastType.info "Simulation already in progress") := by
  refine ⟨(simReachable_invariant s h).1, ?_⟩
  intro env v hv
  simp [simulateRandomScenario, hv]

theorem claim3_witness :
    (SimGate.mk true 1).activeRuns ≤ 1 ∧
    simulateRandomScenario
      (Env.mk FetchOutcome.ok (ScenarioApiOutcome.reject "down")
        EventsApiOutcome.reject [])
      { initViz with isSimulating := true }
      = pushToast { initViz with isSimulating := true } ToastType.info
          "Simulation already in progress" := by
  have hr : SimReachable (SimGate.mk true 1) :=
    SimReachable.step _ _ SimReachable.init (SimStep.invokeStart _ rfl)
  exact ⟨(claim3_amended _ hr).1, (claim3_amended _ hr).2 _ _ rfl⟩

/-! ## Claim C4 -/

/-- Claim C4 (confirmed): whenever a sequencer run actually starts (the flag
was down), the `finally` block leaves `isSimulating` false and the simulate
button re-enabled on every exit path — any combination of clear outcome,
scenario-fetch outcome (success, HTTP error, API failure or rejection),
events-fetch outcome and document, including documents where every node
lookup fails. -/
theorem claim4 (env : Env) (s : VizState) (h : s.isSimulating = false) :
    (simulateRandomScenario env s).isSimulating = false ∧
    (simulateRandomScenario env s).btnSimulateDisabled = false := by
  simp [simulateRandomScenario, h]

theorem claim4_witness :
    initViz.isSimulating = false ∧
    (simulateRandomScenario
      (Env.mk FetchOutcome.ok (ScenarioApiOutcome.reject "network down")
        EventsApiOutcome.reject []) initViz).isSimulating = false ∧
    (simulateRandomScenario
      (Env.mk FetchOutcome.ok (ScenarioApiOutcome.reject "network down")
        EventsApiOutcome.reject []) initViz).btnSimulateDisabled = false :=
  ⟨rfl, (claim4 _ initViz rfl).1, (claim4 _ initViz rfl).2⟩

/-! ## Claim C5 -/

/-- Claim C5 (confirmed): a step whose system names do not resolve is a soft
failure: in any document lacking both candidate ids,
`getNodeElement("Unknown_System")` returns null (it is a total function, so
nothing is thrown), `animateEvent` still appends the step's log entry
whatever the lookups returned, and the remaining steps still each append
their entry. -/
theorem claim5 (doc : Doc) (s : VizState) (ev : EventRecord)
    (rest : List EventRecord)
    (h1 : "node-Unknown-System" ∉ doc) (h2 : "node-Unknown_System" ∉ doc) :
    getNodeElement "Unknown_System" doc = none ∧
    (animateEvent doc s ev).log = addEventToLogEnhanced s.log ev ∧
    (logAppendsOf (runEvents doc s (ev :: rest)).trace).length
      = (logAppendsOf s.trace).length + 1 + rest.length := by
  refine ⟨?_, animateEvent_log doc s ev, ?_⟩
  · have ha : ("node-" ++ jsNormalizeName "Unknown_System") = "node-Unknown-System" := by
      decide
    have hb : ("node-" ++ "Unknown_System") = "node-Unknown_System" := by decide
    simp [getNodeElement, getElementById, ha, hb, h1, h2]
  · rw [runEvents_trace, logAppendsOf_append, logAppendsOf_mapAppend]
    simp only [List.length_append, List.length_map, List.length_cons]
    omega

theorem claim5_witness :
    ("node-Unknown-System" ∉ ([] : Doc)) ∧ ("node-Unknown_System" ∉ ([] : Doc)) ∧
    getNodeElement "Unknown_System" [] = none ∧
    (animateEvent [] initViz sampleEvent).log
      = addEventToLogEnhanced initViz.log sampleEvent := by
  refine ⟨by simp, by simp, ?_, ?_⟩
  · exact (claim5 [] initViz sampleEvent [] (by simp) (by simp)).1
  · exact (claim5 [] initViz sampleEvent [] (by simp) (by simp)).2.1

/-! ## Claim C6 -/

theorem displayScenarioInfo_trace (doc : Doc) (s : VizState)
    (ag : Option (List String)) : (displayScenarioInfo doc s ag).trace = s.trace := by
  cases ag <;> simp [displayScenarioInfo]

theorem showDemoAnimationWithScenario_trace (doc : Doc) (s : VizState) :
    (showDemoAnimationWithScenario doc s).trace
      = s.trace
        ++ (mockEventsOf mockScenarioFlow).map (fun e => Op.logAppend (Entry.event e))
        ++ [Op.toast ToastType.success "Quality investigation scenario completed"] := by
  simp [showDemoAnimationWithScenario, pushToast, displayScenarioResult,
    animateScenarioFromData_some, runEvents_trace, clearEventLog_trace,
    displayScenarioInfo_trace]

theorem clear_logAppends (o : FetchOutcome) (s : VizState) :
    logAppendsOf (clear o s).trace = logAppendsOf s.trace := by
  cases o <;> simp [clear, pushToast, logAppendsOf_append, logAppendsOf]

theorem simulateRandomScenario_reject_trace (co : FetchOutcome)
    (ea : EventsApiOutcome) (doc : Doc) (msg : String) (s : VizState)
    (h : s.isSimulating = false) :
    (simulateRandomScenario (Env.mk co (ScenarioApiOutcome.reject msg) ea doc) s).trace
      = (clear co s).trace
        ++ [Op.toast ToastType.warning ("Network error, running demo: " ++ msg)]
        ++ (mockEventsOf mockScenarioFlow).map (fun e => Op.logAppend (Entry.event e))
        ++ [Op.toast ToastType.success "Quality investigation scenario completed"] := by
  simp only [simulateRandomScenario]
  rw [if_neg (by simp [h])]
  rw [showDemoAnimationWithScenario_trace]
  simp [pushToast, startImmediateAnimation, List.append_assoc]

/-- Claim C6 as stated is false on the code: when the scenario fetch
rejects, the fallback that runs is the 12-step mock quality-investigation
scenario, not a 15-step animation — the run performs 12 log appends. -/
theorem claim6_counterexample :
    (logAppendsOf (simulateRandomScenario
      (Env.mk FetchOutcome.ok (ScenarioApiOutcome.reject "err")
        EventsApiOutcome.reject []) initViz).trace).length = 12 ∧
    (logAppendsOf (simulateRandomScenario
      (Env.mk FetchOutcome.ok (ScenarioApiOutcome.reject "err")
        EventsApiOutcome.reject []) initViz).trace).length ≠ 15 := by
  decide

/-- Claim C6 (amended): when the `/scenarios/random` fetch rejects, the
sequencer never fails hard: `showToast` is called with a warning-type
message, the hardcoded fallback scenario animation of fixed length 12 steps
runs to completion (one log append per step, `isSimulating` reset), and the
15-step `demoFlow` list belongs to the separate `showDemoAnimation`
fallback used when flow data is missing. -/
theorem claim6_amended (co : FetchOutcome) (ea : EventsApiOutcome) (doc : Doc)
    (msg : String) (s : VizState) (h : s.isSimulating = false) :
    Op.toast ToastType.warning ("Network error, running demo: " ++ msg)
      ∈ (simulateRandomScenario
          (Env.mk co (ScenarioApiOutcome.reject msg) ea doc) s).trace ∧
    (logAppendsOf (simulateRandomScenario
        (Env.mk co (ScenarioApiOutcome.reject msg) ea doc) s).trace).length
      = (logAppendsOf s.trace).length + 12 ∧
    (simulateRandomScenario
        (Env.mk co (ScenarioApiOutcome.reject msg) ea doc) s).isSimulating = false ∧
    (mockEventsOf mockScenarioFlow).length = 12 ∧
    demoEvents.length = 15 := by
  have ht := simulateRandomScenario_reject_trace co ea doc msg s h
  refine ⟨?_, ?_, ?_, by decide, by decide⟩
  · rw [ht]
    simp
  · rw [ht]
    simp only [logAppendsOf_append, logAppendsOf_mapAppend, List.length_append,
      List.length_map]
    rw [clear_logAppends]
    have h12 : (mockEventsOf mockScenarioFlow).length = 12 := by decide
    simp [logAppendsOf, h12]
  · simp [simulateRandomScenario, h]

theorem claim6_witness :
    initViz.isSimulating = false ∧
    Op.toast ToastType.warning ("Network error, running demo: " ++ "boom")
      ∈ (simulateRandomScenario
          (Env.mk FetchOutcome.ok (ScenarioApiOutcome.reject "boom")
            EventsApiOutcome.reject []) initViz).trace :=
  ⟨rfl, (claim6_amended FetchOutcome.ok EventsApiOutcome.reject [] "boom"
    initViz rfl).1⟩

/-! ## Node-class lemmas -/

theorem classesOf_cons (m : String) (cl : List String) (rest : NodeClasses)
    (n : String) :
    classesOf ((m, cl) :: rest) n = if m = n then cl else classesOf rest n := rfl

theorem classesOf_removeClassesAll (nc : NodeClasses) (cs : List String)
    (n : String) :
    classesOf (removeClassesAll nc cs) n
      = (classesOf nc n).filter (fun c => !cs.contains c) := by
  induction nc with
  | nil => simp [removeClassesAll, classesOf]
  | cons p rest ih =>
    obtain ⟨m, cl⟩ := p
    have hmap : removeClassesAll ((m, cl) :: rest) cs
        = (m, cl.filter fun c => !cs.contains c) :: removeClassesAll rest cs := rfl
    rw [hmap]
    by_cases hm : m = n
    · subst hm
      simp [classesOf_cons]
    · simp [classesOf_cons, hm, ih]

theorem classesOf_removeClasses (nc : NodeClasses) (n0 : String)
    (cs : List String) (n : String) :
    classesOf (removeClasses nc n0 cs) n
      = if n = n0 then (classesOf nc n).filter (fun c => !cs.contains c)
        else classesOf nc n := by
  induction nc with
  | nil => simp [removeClasses, classesOf]
  | cons p rest ih =>
    obtain ⟨m, cl⟩ := p
    have hmap : removeClasses ((m, cl) :: rest) n0 cs
        = (if m = n0 then (m, cl.filter fun c => !cs.contains c) else (m, cl))
          :: removeClasses rest n0 cs := rfl
    rw [hmap]
    by_cases h1 : m = n0
    · subst h1
      by_cases h2 : m = n
      · subst h2
        simp [classesOf_cons]
      · have h3 : ¬ n = m := fun hh => h2 hh.symm
        simp [classesOf_cons, h2, h3, ih]
    · by_cases h2 : m = n
      · subst h2
        simp [classesOf_cons, h1]
      · simp [classesOf_cons, h1, h2, ih]

theorem mem_addClassTo (cl : List String) (c x : String) :
    x ∈ addClassTo cl c ↔ x ∈ cl ∨ x = c := by
  unfold addClassTo
  by_cases h : c ∈ cl
  · rw [if_pos (by simpa using h)]
    constructor
    · exact fun hx => Or.inl hx
    · rintro (hx | hx)
      · exact hx
      · exact hx ▸ h
  · rw [if_neg (by simpa using h)]
    simp

theorem classesOf_addClass (nc : NodeClasses) (n0 c : String) (n : String) :
    classesOf (addClass nc n0 c) n
      = if n = n0 then addClassTo (classesOf nc n) c else classesOf nc n := by
  induction nc with
  | nil =>
    by_cases h : n = n0
    · subst h
      simp [addClass, classesOf, addClassTo]
    · have h2 : ¬ n0 = n := fun hh => h hh.symm
      simp [addClass, classesOf, h, h2]
  | cons p rest ih =>
    obtain ⟨m, cl⟩ := p
    by_cases h1 : m = n0
    · subst h1
      have hm : addClass ((m, cl) :: rest) m c = (m, addClassTo cl c) :: rest := by
        simp [addClass]
      rw [hm]
      by_cases h2 : m = n
      · subst h2
        simp [classesOf_cons]
      · have h3 : ¬ n = m := fun hh => h2 hh.symm
        simp [classesOf_cons, h2, h3]
    · have hm : addClass ((m, cl) :: rest) n0 c = (m, cl) :: addClass rest n0 c := by
        simp [addClass, h1]
      rw [hm]
      by_cases h2 : m = n
      · subst h2
        have h3 : ¬ m = n0 := h1
        simp [classesOf_cons, h3]
      · simp [classesOf_cons, h2, ih]

theorem mem_classesOf_addClass (nc : NodeClasses) (n0 c0 : String)
    (n c : String) :
    c ∈ classesOf (addClass nc n0 c0) n
      ↔ c ∈ classesOf nc n ∨ (n = n0 ∧ c = c0) := by
  rw [classesOf_addClass]
  by_cases h : n = n0
  · simp [h, mem_addClassTo]
  · simp [h]

theorem mem_classesOf_addClasses (nc : NodeClasses) (n0 : String)
    (cs : List String) (n c : String) :
    c ∈ classesOf (addClasses nc n0 cs) n
      ↔ c ∈ classesOf nc n ∨ (n = n0 ∧ c ∈ cs) := by
  induction cs generalizing nc with
  | nil => simp [addClasses]
  | cons c0 rest ih =>
    have hstep : addClasses nc n0 (c0 :: rest) = addClasses (addClass nc n0 c0) n0 rest := rfl
    rw [hstep, ih, mem_classesOf_addClass]
    by_cases h : n = n0
    · subst h
      simp only [List.mem_cons, true_and]
      tauto
    · simp [h]

theorem mem_classesOf_removeClassesAll_other (nc : NodeClasses)
    (cs : List String) (n c : String) (h : c ∉ cs) :
    c ∈ classesOf (removeClassesAll nc cs) n ↔ c ∈ classesOf nc n := by
  rw [classesOf_removeClassesAll]
  simp [List.mem_filter, h]

/-- Folding `addClass` of a fixed class over optionally-resolved nodes never
changes membership of any other class. -/
theorem mem_classesOf_foldl_addOne {β : Type} (l : List β)
    (f : β → Option String) (c0 : String) (c : String) (h : ¬ c = c0) :
    ∀ (nc : NodeClasses) (n : String),
      c ∈ classesOf
        (l.foldl
          (fun nc a =>
            match f a with
            | some m => addClass nc m c0
            | none => nc)
          nc) n
      ↔ c ∈ classesOf nc n := by
  induction l with
  | nil => intro nc n; exact Iff.rfl
  | cons a rest ih =>
    intro nc n
    rw [List.foldl_cons, ih]
    cases hfa : f a with
    | none => simp [hfa]
    | some m => simp [hfa, mem_classesOf_addClass, h]

theorem mem_classesOf_highlight (doc : Doc) (s : VizState) (ev : EventRecord)
    (n c : String) (h : ¬ c = "scenario-involved") :
    c ∈ classesOf (highlightScenarioComponents doc s ev).nodeClasses n
      ↔ c ∈ classesOf s.nodeClasses n := by
  unfold highlightScenarioComponents
  cases hT : getNodeElement ev.target_system doc <;>
    cases hS : getNodeElement ev.source_system doc <;>
    cases hA : s.currentScenarioAgents <;>
      simp only [hT, hS, hA] <;>
      (try simp only [mem_classesOf_addClass, h, and_false, or_false]) <;>
      (try rw [mem_classesOf_foldl_addOne _ _ _ _ h]) <;>
      exact mem_classesOf_removeClassesAll_other _ _ _ _ (by simpa using h)

theorem mem_classesOf_removeClasses_mono (nc : NodeClasses) (n0 : String)
    (cs : List String) (n c : String)
    (h : c ∈ classesOf (removeClasses nc n0 cs) n) : c ∈ classesOf nc n := by
  rw [classesOf_removeClasses] at h
  by_cases h2 : n = n0
  · rw [if_pos h2] at h
    exact (List.mem_filter.mp h).1
  · rwa [if_neg h2] at h

theorem not_mem_removeClasses_self (nc : NodeClasses) (n : String)
    (cs : List String) (c : String) (hc : c ∈ cs) :
    c ∉ classesOf (removeClasses nc n cs) n := by
  rw [classesOf_removeClasses, if_pos rfl]
  intro h
  have h2 := (List.mem_filter.mp h).2
  simp at h2
  exact h2 hc

theorem mem_fireCleanup_mono (nc : NodeClasses) (t : CleanupTask) (n c : String)
    (h : c ∈ classesOf (fireCleanup nc t) n) : c ∈ classesOf nc n := by
  cases t with
  | allNodes =>
    simp only [fireCleanup] at h
    rw [classesOf_removeClassesAll] at h
    exact (List.mem_filter.mp h).1
  | step src tgt =>
    simp only [fireCleanup] at h
    cases src with
    | none =>
      cases tgt with
      | none => exact h
      | some m => exact mem_classesOf_removeClasses_mono _ _ _ _ _ h
    | some k =>
      cases tgt with
      | none => exact mem_classesOf_removeClasses_mono _ _ _ _ _ h
      | some m =>
        exact mem_classesOf_removeClasses_mono _ _ _ _ _
          (mem_classesOf_removeClasses_mono _ _ _ _ _ h)

theorem not_mem_fireCleanup_of_removes (nc : NodeClasses) (t : CleanupTask)
    (n c : String) (h : taskRemovesAt t n c) :
    c ∉ classesOf (fireCleanup nc t) n := by
  cases t with
  | allNodes =>
    simp only [taskRemovesAt] at h
    simp only [fireCleanup]
    intro hmem
    rw [classesOf_removeClassesAll] at hmem
    have h2 := (List.mem_filter.mp hmem).2
    simp at h2
    exact h2 h
  | step src tgt =>
    simp only [taskRemovesAt] at h
    rcases h with ⟨hs, hc⟩ | ⟨ht, hc⟩
    · subst hs
      simp only [fireCleanup]
      cases tgt with
      | none => exact not_mem_removeClasses_self nc n srcRemoveList c hc
      | some m =>
        intro hmem
        exact not_mem_removeClasses_self nc n srcRemoveList c hc
          (mem_classesOf_removeClasses_mono _ _ _ _ _ hmem)
    · subst ht
      simp only [fireCleanup]
      exact not_mem_removeClasses_self _ n tgtRemoveList c hc

theorem mem_fireTasks_mono (ts : List CleanupTask) (n c : String) :
    ∀ nc : NodeClasses, c ∈ classesOf (fireTasks nc ts) n → c ∈ classesOf nc n := by
  induction ts with
  | nil => exact fun nc h => h
  | cons t rest ih =>
    intro nc h
    exact mem_fireCleanup_mono _ _ _ _ (ih (fireCleanup nc t) h)

theorem not_mem_fireTasks_of_removes (ts : List CleanupTask) (n c : String) :
    ∀ nc : NodeClasses, (∃ t ∈ ts, taskRemovesAt t n c) →
      c ∉ classesOf (fireTasks nc ts) n := by
  induction ts with
  | nil => simp
  | cons t rest ih =>
    intro nc hex hmem
    have hstep : fireTasks nc (t :: rest) = fireTasks (fireCleanup nc t) rest := rfl
    rw [hstep] at hmem
    rcases hex with ⟨t0, ht0, hrem⟩
    rcases List.mem_cons.mp ht0 with rfl | hmem0
    · exact not_mem_fireCleanup_of_removes nc t0 n c hrem
        (mem_fireTasks_mono rest n c _ hmem)
    · exact ih (fireCleanup nc t) ⟨t0, hmem0, hrem⟩ hmem

/-! ## Claim C7 -/

theorem animateEvent_nodeClasses (doc : Doc) (s : VizState) (ev : EventRecord) :
    (animateEvent doc s ev).nodeClasses
      = (match getNodeElement ev.target_system doc with
         | some m =>
           addClasses
             (match getNodeElement ev.source_system doc with
              | some k =>
                addClasses (highlightScenarioComponents doc s ev).nodeClasses k
                  ["active", "processing", "scenario-active"]
              | none => (highlightScenarioComponents doc s ev).nodeClasses)
             m ["active", "scenario-active", "receiving"]
         | none =>
           match getNodeElement ev.source_system doc with
           | some k =>
             addClasses (highlightScenarioComponents doc s ev).nodeClasses k
               ["active", "processing", "scenario-active"]
           | none => (highlightScenarioComponents doc s ev).nodeClasses) := by
  cases hT : getNodeElement ev.target_system doc <;>
    cases hS : getNodeElement ev.source_system doc <;>
      simp [animateEvent, hT, hS]

/-- Claim C7 as stated is false on the code: `scenario-active` is a highlight
class added to the resolved source and target nodes during a step, but the
step's 1200ms deactivation timeout removes only `active`, `processing` and
`receiving`, so after every scheduled cleanup has fired the target still
carries `scenario-active`. -/
theorem claim7_counterexample :
    "scenario-active" ∈ classesOf
      (animateEvent ["node-UI", "node-Orchestrator"] initViz sampleEvent).nodeClasses
      "node-Orchestrator" ∧
    "scenario-active" ∈ classesOf
      (fireAllPending
        (animateEvent ["node-UI", "node-Orchestrator"] initViz sampleEvent)).nodeClasses
      "node-Orchestrator" := by
  decide

/-- Claim C7 (amended): the transient highlight classes `active`,
`processing` and `receiving` added to a node during a step are all removed
again once the step's scheduled cleanup fires — any such class still present
after all pending timeouts elapsed was already there before the step — while
`scenario-active` is only removed by `clear`
(invoked at the start of each new run), which strips it from every node. -/
theorem claim7_amended (doc : Doc) (s : VizState) (ev : EventRecord)
    (n c : String) (hc : c ∈ transientClasses)
    (h : c ∈ classesOf (fireAllPending (animateEvent doc s ev)).nodeClasses n) :
    c ∈ classesOf s.nodeClasses n ∧
    (∀ (s2 : VizState) (m : String),
      "scenario-active" ∉ classesOf (clear FetchOutcome.ok s2).nodeClasses m) := by
  have hsi : ¬ c = "scenario-involved" := by
    intro hh
    rw [hh] at hc
    simp [transientClasses] at hc
  have hfp : (fireAllPending (animateEvent doc s ev)).nodeClasses
      = fireTasks (animateEvent doc s ev).nodeClasses
          (animateEvent doc s ev).pending := rfl
  rw [hfp] at h
  have hmem2 : c ∈ classesOf (animateEvent doc s ev).nodeClasses n :=
    mem_fireTasks_mono _ _ _ _ h
  have htask : CleanupTask.step (getNodeElement ev.source_system doc)
      (getNodeElement ev.target_system doc) ∈ (animateEvent doc s ev).pending := by
    rw [animateEvent_pending]
    simp
  have hnorem : ¬ taskRemovesAt
      (CleanupTask.step (getNodeElement ev.source_system doc)
        (getNodeElement ev.target_system doc)) n c := by
    intro hr
    exact not_mem_fireTasks_of_removes _ n c _ ⟨_, htask, hr⟩ h
  simp only [taskRemovesAt] at hnorem
  push_neg at hnorem
  obtain ⟨hnoS, hnoT⟩ := hnorem
  have hcs : c ∈ srcRemoveList := hc
  have hS2 : getNodeElement ev.source_system doc ≠ some n :=
    fun heq => (hnoS heq) hcs
  constructor
  · rw [animateEvent_nodeClasses] at hmem2
    cases hT : getNodeElement ev.target_system doc with
    | some m =>
      rw [hT] at hmem2
      simp only [] at hmem2
      rw [mem_classesOf_addClasses] at hmem2
      rcases hmem2 with hmem2 | ⟨hnm, hcmem⟩
      · cases hS : getNodeElement ev.source_system doc with
        | some k =>
          rw [hS] at hmem2
          simp only [] at hmem2
          rw [mem_classesOf_addClasses] at hmem2
          rcases hmem2 with hmem2 | ⟨hnk, _⟩
          · rwa [mem_classesOf_highlight _ _ _ _ _ hsi] at hmem2
          · exact (hS2 (by rw [hS, hnk])).elim
        | none =>
          rw [hS] at hmem2
          rwa [mem_classesOf_highlight _ _ _ _ _ hsi] at hmem2
      · have hnt : c ∉ tgtRemoveList := hnoT (by rw [hT, hnm])
        simp [transientClasses] at hc
        rcases hc with rfl | rfl | rfl
        · exact (hnt (by decide)).elim
        · simp at hcmem
        · exact (hnt (by decide)).elim
    | none =>
      rw [hT] at hmem2
      cases hS : getNodeElement ev.source_system doc with
      | some k =>
        rw [hS] at hmem2
        simp only [] at hmem2
        rw [mem_classesOf_addClasses] at hmem2
        rcases hmem2 with hmem2 | ⟨hnk, _⟩
        · rwa [mem_classesOf_highlight _ _ _ _ _ hsi] at hmem2
        · exact (hS2 (by rw [hS, hnk])).elim
      | none =>
        rw [hS] at hmem2
        rwa [mem_classesOf_highlight _ _ _ _ _ hsi] at hmem2
  · intro s2 m
    have hne : (clear FetchOutcome.ok s2).nodeClasses
        = removeClassesAll s2.nodeClasses clearResetClasses := rfl
    rw [hne, classesOf_removeClassesAll]
    intro hmem
    have h2 := (List.mem_filter.mp hmem).2
    simp at h2
    exact h2 (by decide)

theorem claim7_witness :
    "active" ∈ transientClasses ∧
    "active" ∈ classesOf
      (fireAllPending (animateEvent []
        { initViz with nodeClasses := [("node-X", ["active"])] }
        sampleEvent)).nodeClasses "node-X" ∧
    "active" ∈ classesOf
      ({ initViz with nodeClasses := [("node-X", ["active"])] } : VizState).nodeClasses
      "node-X" :=
  ⟨by decide, by decide,
    (claim7_amended [] { initViz with nodeClasses := [("node-X", ["active"])] }
      sampleEvent "node-X" "active" (by decide) (by decide)).1⟩

/-! ## Claim C8 -/

theorem removeClassesAll_idem (nc : NodeClasses) (cs : List String) :
    removeClassesAll (removeClassesAll nc cs) cs = removeClassesAll nc cs := by
  unfold removeClassesAll
  rw [List.map_map]
  apply List.map_congr_left
  intro p _
  simp [List.filter_filter]

/-- Claim C8 as stated is false on the code: `clear()` performs its resets
only after the awaited POST to `/events/clear` resolves; when that fetch
rejects, starting from a state with `eventCount = 5` the count is still 5
after the call (the catch branch only shows an error toast). -/
theorem claim8_counterexample :
    (clear FetchOutcome.reject { initViz with eventCount := 5 }).eventCount = 5 ∧
    (clear FetchOutcome.reject { initViz with eventCount := 5 }).eventCount ≠ 0 := by
  decide

/-- Claim C8 (amended): when the backend clear call succeeds, `clear()`
resets the event count to 0, replaces the log contents with the placeholder,
removes the `active` and `scenario-active` highlight classes from every
node, and is idempotent: a second successful `clear()` leaves the state of
the first unchanged. -/
theorem claim8_amended (s : VizState) :
    (clear FetchOutcome.ok s).eventCount = 0 ∧
    (clear FetchOutcome.ok s).log = [Entry.placeholder] ∧
    (∀ n : String,
      "active" ∉ classesOf (clear FetchOutcome.ok s).nodeClasses n ∧
      "scenario-active" ∉ classesOf (clear FetchOutcome.ok s).nodeClasses n) ∧
    clear FetchOutcome.ok (clear FetchOutcome.ok s) = clear FetchOutcome.ok s := by
  refine ⟨rfl, rfl, ?_, ?_⟩
  · intro n
    constructor <;>
      · rw [show (clear FetchOutcome.ok s).nodeClasses
            = removeClassesAll s.nodeClasses clearResetClasses from rfl,
          classesOf_removeClassesAll]
        intro hmem
        have h2 := (List.mem_filter.mp hmem).2
        simp at h2
        exact h2 (by decide)
  · simp [clear, VizState.mk.injEq, removeClassesAll_idem]

/-! ## Claim C9 -/

/-- Claim C9 (confirmed): node-name resolution is deterministic:
`getNodeElement` is the first hit of the candidate-id list, which is a pure
function of the system-name string (spaces and underscores replaced by
dashes, raw name as fallback), so two calls over documents agreeing on those
candidates — in particular two calls against the same document — resolve to
the same element; for "SAP_ERP" the candidates are `node-SAP-ERP` then
`node-SAP_ERP`. -/
theorem claim9 (name : String) (d1 d2 : Doc)
    (h : ∀ id ∈ candidateIds name, getElementById d1 id = getElementById d2 id) :
    getNodeElement name d1 = firstResolve d1 (candidateIds name) ∧
    getNodeElement name d1 = getNodeElement name d2 ∧
    candidateIds "SAP_ERP" = ["node-SAP-ERP", "node-SAP_ERP"] := by
  refine ⟨?_, ?_, by decide⟩
  · unfold getNodeElement firstResolve candidateIds
    cases hx : getElementById d1 ("node-" ++ jsNormalizeName name) <;>
      simp [List.findSome?_cons, hx] <;>
      (try cases getElementById d1 ("node-" ++ name) <;> rfl)
  · have h1 := h ("node-" ++ jsNormalizeName name) (by simp [candidateIds])
    have h2 := h ("node-" ++ name) (by simp [candidateIds])
    unfold getNodeElement
    rw [h1, h2]

theorem claim9_witness :
    getElementById ["node-SAP-ERP"] "node-SAP-ERP"
      = getElementById ["node-SAP-ERP", "node-other"] "node-SAP-ERP" ∧
    getNodeElement "SAP_ERP" ["node-SAP-ERP"]
      = getNodeElement "SAP_ERP" ["node-SAP-ERP", "node-other"] :=
  ⟨by decide, (claim9 "SAP_ERP" ["node-SAP-ERP"] ["node-SAP-ERP", "node-other"]
    (by decide)).2.1⟩

/-! ## Claim C10 -/

/-- Claim C10 (confirmed): `clear()` is not atomic with its backend call:
when the POST to `/events/clear` rejects, only an error toast is emitted and
the event log, node highlight classes, metric displays, event count and
`isSimulating` flag are all left unchanged. -/
theorem claim10 (s : VizState) :
    (clear FetchOutcome.reject s).log = s.log ∧
    (clear FetchOutcome.reject s).nodeClasses = s.nodeClasses ∧
    (clear FetchOutcome.reject s).metricEvents = s.metricEvents ∧
    (clear FetchOutcome.reject s).metricLatency = s.metricLatency ∧
    (clear FetchOutcome.reject s).metricSystems = s.metricSystems ∧
    (clear FetchOutcome.reject s).eventCount = s.eventCount ∧
    (clear FetchOutcome.reject s).isSimulating = s.isSimulating ∧
    (clear FetchOutcome.reject s).trace
      = s.trace ++ [Op.toast ToastType.error "Error clearing events"] := by
  simp [clear, pushToast]
